import Mathlib

/-!
Verification of the nsw-weather-data repository (src/fetch_bom.py and
src/fetch_bom_api.py) via a shallow embedding in Lean.

Python dictionaries with optional / nullable entries are embedded as
structures of `Option` fields.  Where the Python code distinguishes a key
that is absent (so `dict.get(key, default)` yields the default) from a key
that is present with value `None`, the field is `Option (Option _)`; where
the two cases are indistinguishable in the code, a single `Option` layer is
used.  Machine-level details that no claim depends on (exotic numeric
literals accepted by Python `int()`, floating point rain amounts, XML
byte-level parsing) are embedded at the level the code manipulates them:
`int()` coercion over decimal strings, rain amounts as integers, an XML
document as its ordered list of top-level elements.
-/

namespace FetchBom

/-- A child `element` tag of a forecast period: its `type` attribute and its
text content, both optional. -/
structure PeriodElem where
  typ : Option String
  text : Option String
deriving DecidableEq

/-- A `forecast-period` element: its `start-time-local` attribute and its
child `element` tags in document order. -/
structure ForecastPeriod where
  start_time_local : Option String
  elements : List PeriodElem
deriving DecidableEq

/-- A top-level XML element seen by the streaming parse: its tag, its
`type`, `aac` and `description` attributes, and its `forecast-period`
children in document order. -/
structure AreaElem where
  tag : String
  typ : Option String
  aac : Option String
  description : Option String
  periods : List ForecastPeriod
deriving DecidableEq

/-- Forecast data for a single location (the `LocationForecast` dataclass of
fetch_bom.py). -/
structure LocationForecast where
  aac : String
  description : String
  min_temp : Option Int
  min_temp_date : Option String
  max_temp : Option Int
  max_temp_date : Option String
deriving DecidableEq

/-- The decimal value of a character list: `none` when the list is empty or
contains a non-digit character. -/
def digits_to_nat (cs : List Char) : Option Nat :=
  if cs.isEmpty then none
  else if cs.all Char.isDigit then
    some (cs.foldl (fun acc c => acc * 10 + (c.toNat - 48)) 0)
  else none

/-- Python `int(s)` on a decimal string: surrounding whitespace stripped,
an optional sign, then at least one digit; anything else raises ValueError,
embedded as `none`.  (Underscore digit separators, which Python also
accepts, are not modelled; no claim involves them.) -/
def py_int (s : String) : Option Int :=
  let cs := ((s.data.dropWhile Char.isWhitespace).reverse.dropWhile
    Char.isWhitespace).reverse
  match cs with
  | '-' :: ds => (digits_to_nat ds).map fun n => -(n : Int)
  | '+' :: ds => (digits_to_nat ds).map fun n => (n : Int)
  | ds => (digits_to_nat ds).map fun n => (n : Int)

/-- Python `int(text)` under `except (ValueError, TypeError)`: `none` when
the text is missing (TypeError) or fails integer coercion (ValueError). -/
def int_coerce (t : Option String) : Option Int :=
  t.bind py_int

/-- The element loop of `parse_forecast_period`: walk the `element`
children, assigning the minimum and maximum temperature whenever an element
of the matching type has text that coerces to an integer. -/
def scanElems : List PeriodElem → Option Int → Option Int → Option Int × Option Int
  | [], mn, mx => (mn, mx)
  | e :: rest, mn, mx =>
    if e.typ == some "air_temperature_minimum" then
      match int_coerce e.text with
      | some v => scanElems rest (some v) mx
      | none => scanElems rest mn mx
    else if e.typ == some "air_temperature_maximum" then
      match int_coerce e.text with
      | some v => scanElems rest mn (some v)
      | none => scanElems rest mn mx
    else
      scanElems rest mn mx

/-- `parse_forecast_period`: returns (start_date, min_temp, max_temp), the
start date truncated to its first 10 characters when non-empty. -/
def parse_forecast_period (p : ForecastPeriod) : Option String × Option Int × Option Int :=
  let start_date :=
    match p.start_time_local with
    | none => none
    | some s => if s.isEmpty then some s else some (s.take 10)
  let r := scanElems p.elements none none
  (start_date, r.1, r.2)

/-- The forecast-period loop of `parse_bom_xml`: take the first period
supplying a minimum and, independently, the first supplying a maximum,
stopping as soon as both are assigned.  Arguments after the list are the
current nearest min, its date, nearest max, its date. -/
def nearestTemps : List ForecastPeriod → Option Int → Option String → Option Int →
    Option String → Option Int × Option String × Option Int × Option String
  | [], nmin, nmind, nmax, nmaxd => (nmin, nmind, nmax, nmaxd)
  | p :: rest, nmin, nmind, nmax, nmaxd =>
    let parsed := parse_forecast_period p
    let nmin2 := if nmin.isNone && parsed.2.1.isSome then parsed.2.1 else nmin
    let nmind2 := if nmin.isNone && parsed.2.1.isSome then parsed.1 else nmind
    let nmax2 := if nmax.isNone && parsed.2.2.isSome then parsed.2.2 else nmax
    let nmaxd2 := if nmax.isNone && parsed.2.2.isSome then parsed.1 else nmaxd
    if nmin2.isSome && nmax2.isSome then (nmin2, nmind2, nmax2, nmaxd2)
    else nearestTemps rest nmin2 nmind2 nmax2 nmaxd2

/-- The per-area body of `parse_bom_xml`: attributes defaulted to the empty
string and the nearest-temperature scan over the forecast periods. -/
def area_forecast (a : AreaElem) : LocationForecast :=
  let r := nearestTemps a.periods none none none none
  { aac := a.aac.getD ""
    description := a.description.getD ""
    min_temp := r.1
    min_temp_date := r.2.1
    max_temp := r.2.2.1
    max_temp_date := r.2.2.2 }

/-- `parse_bom_xml`: yield a LocationForecast for every element that is an
`area` with type attribute `location`, in document order. -/
def parse_bom_xml : List AreaElem → List LocationForecast
  | [] => []
  | a :: rest =>
    if a.tag == "area" && a.typ == some "location" then
      area_forecast a :: parse_bom_xml rest
    else
      parse_bom_xml rest

/-- Rendering of an optional integer CSV cell: `str(v)` or the empty
string. -/
def opt_int_cell : Option Int → String
  | none => ""
  | some v => toString v

/-- The fixed header row of write_csv in fetch_bom.py. -/
def csv_header : List String :=
  ["aac", "location", "min_temp_celsius", "min_temp_date",
   "max_temp_celsius", "max_temp_date"]

/-- One data row of write_csv in fetch_bom.py: absent values become empty
strings. -/
def csv_row (f : LocationForecast) : List String :=
  [f.aac, f.description,
   opt_int_cell f.min_temp, f.min_temp_date.getD "",
   opt_int_cell f.max_temp, f.max_temp_date.getD ""]

/-- The record loop of write_csv: one row appended per forecast, counting
rows written. -/
def write_rows : List LocationForecast → List (List String) × Nat
  | [] => ([], 0)
  | f :: rest =>
    let r := write_rows rest
    (csv_row f :: r.1, r.2 + 1)

/-- `write_csv` of fetch_bom.py as the sequence of rows it emits, paired
with the count it returns: the fixed header first, then one row per
forecast. -/
def write_csv (fs : List LocationForecast) : List (List String) × Nat :=
  (csv_header :: (write_rows fs).1, (write_rows fs).2)

/-- The specification reading of nearest-minimum selection: the value and
truncated date of the first period, in order, whose minimum parses; absent
when no period supplies one. -/
def spec_first_min (ps : List ForecastPeriod) : Option Int × Option String :=
  match ps.find? (fun p => ((parse_forecast_period p).2.1).isSome) with
  | some p => ((parse_forecast_period p).2.1, (parse_forecast_period p).1)
  | none => (none, none)

/-- The specification reading of nearest-maximum selection: the value and
truncated date of the first period, in order, whose maximum parses; absent
when no period supplies one. -/
def spec_first_max (ps : List ForecastPeriod) : Option Int × Option String :=
  match ps.find? (fun p => ((parse_forecast_period p).2.2).isSome) with
  | some p => ((parse_forecast_period p).2.2, (parse_forecast_period p).1)
  | none => (none, none)

/-- Nearest-minimum selection relative to an accumulated state: an already
assigned minimum is final; otherwise the first period whose minimum parses
supplies value and date, and failing that the accumulated date stands. -/
def first_min_from (ps : List ForecastPeriod) (mn : Option Int)
    (mnd : Option String) : Option Int × Option String :=
  match mn with
  | some v => (some v, mnd)
  | none =>
    match ps.find? (fun p => ((parse_forecast_period p).2.1).isSome) with
    | some p => ((parse_forecast_period p).2.1, (parse_forecast_period p).1)
    | none => (none, mnd)

/-- Nearest-maximum selection relative to an accumulated state. -/
def first_max_from (ps : List ForecastPeriod) (mx : Option Int)
    (mxd : Option String) : Option Int × Option String :=
  match mx with
  | some v => (some v, mxd)
  | none =>
    match ps.find? (fun p => ((parse_forecast_period p).2.2).isSome) with
    | some p => ((parse_forecast_period p).2.2, (parse_forecast_period p).1)
    | none => (none, mxd)

end FetchBom

namespace FetchBomApi

/-- Forecast for a single day (the `DayForecast` dataclass of
fetch_bom_api.py). -/
structure DayForecast where
  date : String
  temp_min : Option Int
  temp_max : Option Int
deriving DecidableEq

/-- Full forecast data for a location (the `LocationForecast` dataclass of
fetch_bom_api.py).  The floating-point rain amounts are embedded as
integers; no claim depends on fractional values. -/
structure LocationForecast where
  name : String
  geohash : String
  state : String
  postcode : String
  today_min : Option Int
  today_max : Option Int
  fire_danger : Option String
  rain_min_mm : Option Int
  rain_max_mm : Option Int
  rain_chance : Option Int
  daily_forecasts : List DayForecast
deriving DecidableEq

/-- A location record from the search endpoint: each attribute read with
`dict.get`, so absent (or JSON null) maps to `none`. -/
structure SearchLoc where
  name : Option String
  geohash : Option String
  state : Option String
  postcode : Option String
deriving DecidableEq

/-- The `now` sub-record of a day entry.  For `temp_now` and `temp_later`
the code distinguishes an absent key (the prior value is kept) from a key
present with a null value (the prior value is overwritten by null), hence
the doubled Option; for `now_label` the two cases behave identically. -/
structure NowData where
  now_label : Option String
  temp_now : Option (Option Int)
  temp_later : Option (Option Int)
deriving DecidableEq

/-- The `amount` sub-record of the rain data. -/
structure RainAmount where
  min : Option Int
  max : Option Int
deriving DecidableEq

/-- The `rain` sub-record of a day entry. -/
structure RainData where
  amount : Option RainAmount
  chance : Option Int
deriving DecidableEq

/-- One day object of the daily-forecast response.  `none` on a sub-record
field covers the absent key, an empty dict and JSON null alike, matching
how the code treats all of them as falsy or defaulted. -/
structure DayEntry where
  date : Option String
  temp_min : Option Int
  temp_max : Option Int
  fire_danger : Option String
  rain : Option RainData
  now : Option NowData
deriving DecidableEq

/-- The empty dict used for `forecast_data[0] if forecast_data else {}`. -/
def emptyEntry : DayEntry :=
  { date := none, temp_min := none, temp_max := none,
    fire_danger := none, rain := none, now := none }

/-- Python `d.get(key, default)` for a key whose stored value may itself be
null: absent key yields the default, a present key yields its (possibly
null) value. -/
def dict_get (f : Option (Option Int)) (d : Option Int) : Option Int :=
  f.getD d

/-- `parse_forecast`: normalize one search result plus the ordered daily
forecast list (index 0 = today) into a LocationForecast. -/
def parse_forecast (location : SearchLoc) (forecast_data : List DayEntry) :
    LocationForecast :=
  let today := forecast_data.headD emptyEntry
  let pair :=
    match today.now with
    | none => (today.temp_min, today.temp_max)
    | some nd =>
      if nd.now_label == some "Max" then
        (dict_get nd.temp_later today.temp_min, dict_get nd.temp_now today.temp_max)
      else
        (dict_get nd.temp_now today.temp_min, dict_get nd.temp_later today.temp_max)
  let rain_amount := today.rain.bind RainData.amount
  { name := location.name.getD ""
    geohash := location.geohash.getD ""
    state := location.state.getD ""
    postcode := location.postcode.getD ""
    today_min := pair.1
    today_max := pair.2
    fire_danger := today.fire_danger
    rain_min_mm := rain_amount.bind RainAmount.min
    rain_max_mm := rain_amount.bind RainAmount.max
    rain_chance := today.rain.bind RainData.chance
    daily_forecasts := forecast_data.map fun day =>
      { date := (day.date.getD "").take 10
        temp_min := day.temp_min
        temp_max := day.temp_max } }

/-- Python `str.lower`, as a character-wise map over the string data.
(Location names are ASCII; multi-character Unicode lowerings are not
modelled.) -/
def lower_string (s : String) : String :=
  ⟨s.data.map Char.toLower⟩

/-- Whether a search result is an exact case-insensitive name match. -/
def exact_match (name : String) (loc : SearchLoc) : Bool :=
  lower_string (loc.name.getD "") == lower_string name

/-- `search_location`: the outcome of the network fetch is passed in as an
`Except` value (`error` is a caught URLError; `ok` carries the unwrapped
data list of the response envelope).  Names shorter than 3 characters are
rejected before the fetch outcome is consulted. -/
def search_location (net : Except Unit (List SearchLoc)) (name : String) :
    Option SearchLoc :=
  if name.length < 3 then none
  else
    match net with
    | Except.error _ => none
    | Except.ok locations =>
      if locations.isEmpty then none
      else
        match locations.find? (exact_match name) with
        | some loc => some loc
        | none => locations.head?

/-- `fetch_daily_forecast`: the data list of the response, or the empty
list when the fetch fails. -/
def fetch_daily_forecast (net : Except Unit (List DayEntry)) : List DayEntry :=
  match net with
  | Except.ok l => l
  | Except.error _ => []

/-- The body of the `fetch_forecasts` loop for one location name: `none`
when the name fails resolution, has no usable geohash, or yields no
forecast data; otherwise the parsed record.  `snet` and `dnet` give the
network responses for the search of a name and the daily forecast of a
geohash. -/
def process_one (snet : String → Except Unit (List SearchLoc))
    (dnet : String → Except Unit (List DayEntry)) (name : String) :
    Option LocationForecast :=
  match search_location (snet name) name with
  | none => none
  | some location =>
    match location.geohash with
    | none => none
    | some g =>
      if g.isEmpty then none
      else
        let fd := fetch_daily_forecast (dnet g)
        if fd.isEmpty then none
        else some (parse_forecast location fd)

/-- `fetch_forecasts`: resolve each name in order, skipping a name on a
failed search, a missing or empty geohash, or empty forecast data, and
yielding one parsed record otherwise. -/
def fetch_forecasts (snet : String → Except Unit (List SearchLoc))
    (dnet : String → Except Unit (List DayEntry)) :
    List String → List LocationForecast
  | [] => []
  | name :: rest =>
    match search_location (snet name) name with
    | none => fetch_forecasts snet dnet rest
    | some location =>
      match location.geohash with
      | none => fetch_forecasts snet dnet rest
      | some g =>
        if g.isEmpty then fetch_forecasts snet dnet rest
        else
          let fd := fetch_daily_forecast (dnet g)
          if fd.isEmpty then fetch_forecasts snet dnet rest
          else parse_forecast location fd :: fetch_forecasts snet dnet rest

/-- The fixed header row of write_csv in fetch_bom_api.py: ten leading
columns then date, min, max columns for each of 7 forecast days. -/
def csv_header : List String :=
  ["location", "state", "postcode", "geohash", "today_min_c", "today_max_c",
   "fire_danger", "rain_min_mm", "rain_max_mm", "rain_chance_pct"]
  ++ (List.range 7).flatMap fun i =>
    ["day" ++ toString i ++ "_date", "day" ++ toString i ++ "_min_c",
     "day" ++ toString i ++ "_max_c"]

/-- The three cells of forecast-day slot `i` of a row: the day data when
available, empty padding otherwise. -/
def day_cells (days : List DayForecast) (i : Nat) : List String :=
  match days.get? i with
  | some day => [day.date, FetchBom.opt_int_cell day.temp_min,
                 FetchBom.opt_int_cell day.temp_max]
  | none => ["", "", ""]

/-- One data row of write_csv in fetch_bom_api.py: absent values become
empty strings and the 7 day slots are always emitted. -/
def csv_row (f : LocationForecast) : List String :=
  [f.name, f.state, f.postcode, f.geohash,
   FetchBom.opt_int_cell f.today_min, FetchBom.opt_int_cell f.today_max,
   f.fire_danger.getD "",
   FetchBom.opt_int_cell f.rain_min_mm, FetchBom.opt_int_cell f.rain_max_mm,
   FetchBom.opt_int_cell f.rain_chance]
  ++ (List.range 7).flatMap (day_cells f.daily_forecasts)

/-- The record loop of write_csv: one row appended per forecast, counting
rows written. -/
def write_rows : List LocationForecast → List (List String) × Nat
  | [] => ([], 0)
  | f :: rest =>
    let r := write_rows rest
    (csv_row f :: r.1, r.2 + 1)

/-- `write_csv` of fetch_bom_api.py as the sequence of rows it emits,
paired with the count it returns. -/
def write_csv (fs : List LocationForecast) : List (List String) × Nat :=
  (csv_header :: (write_rows fs).1, (write_rows fs).2)

/-- Modelled from the spec: the rain range-string rendering of the second
output convention (the `rain_range_mm` field exercised by the repository
tests) is missing from src, whose fetch_bom_api.py carries rain as a
numeric min and max column pair instead.  Per the spec, when both bounds
are present and numerically zero it renders the literal value "0" rather
than "0-0"; when both are present and non-zero (or unequal) it renders
"lower-upper"; when the bounds are absent it renders an empty value. -/
def rain_range_mm (lower upper : Option Int) : String :=
  match lower, upper with
  | some l, some u =>
    if l == 0 && u == 0 then "0"
    else toString l ++ "-" ++ toString u
  | _, _ => ""

end FetchBomApi

/-! ## Helper lemmas -/

namespace FetchBom

/-- If every element typed as a minimum fails integer coercion, the scan
leaves the minimum accumulator unchanged. -/
lemma scanElems_min_of_all_fail (es : List PeriodElem) (mn mx : Option Int)
    (h : ∀ e ∈ es, e.typ = some "air_temperature_minimum" → int_coerce e.text = none) :
    (scanElems es mn mx).1 = mn := by
  induction es generalizing mn mx with
  | nil => rfl
  | cons e rest ih =>
    have hrest : ∀ x ∈ rest, x.typ = some "air_temperature_minimum" →
        int_coerce x.text = none := fun x hx => h x (List.mem_cons_of_mem _ hx)
    unfold scanElems
    by_cases hmin : e.typ = some "air_temperature_minimum"
    · have hc : int_coerce e.text = none := h e (List.mem_cons_self _ _) hmin
      simp only [hmin, hc]
      simpa using ih mn mx hrest
    · have hb : (e.typ == some "air_temperature_minimum") = false := by
        simpa using hmin
      simp only [hb, Bool.false_eq_true, if_false]
      by_cases hmax : e.typ = some "air_temperature_maximum"
      · simp only [hmax]
        cases hc : int_coerce e.text with
        | none => simpa using ih mn mx hrest
        | some v => simpa using ih mn (some v) hrest
      · have hb2 : (e.typ == some "air_temperature_maximum") = false := by
          simpa using hmax
        simp only [hb2, Bool.false_eq_true, if_false]
        exact ih mn mx hrest

/-- If every element typed as a maximum fails integer coercion, the scan
leaves the maximum accumulator unchanged. -/
lemma scanElems_max_of_all_fail (es : List PeriodElem) (mn mx : Option Int)
    (h : ∀ e ∈ es, e.typ = some "air_temperature_maximum" → int_coerce e.text = none) :
    (scanElems es mn mx).2 = mx := by
  induction es generalizing mn mx with
  | nil => rfl
  | cons e rest ih =>
    have hrest : ∀ x ∈ rest, x.typ = some "air_temperature_maximum" →
        int_coerce x.text = none := fun x hx => h x (List.mem_cons_of_mem _ hx)
    unfold scanElems
    by_cases hmin : e.typ = some "air_temperature_minimum"
    · simp only [hmin]
      cases hc : int_coerce e.text with
      | none => simpa using ih mn mx hrest
      | some v => simpa using ih (some v) mx hrest
    · have hb : (e.typ == some "air_temperature_minimum") = false := by
        simpa using hmin
      simp only [hb, Bool.false_eq_true, if_false]
      by_cases hmax : e.typ = some "air_temperature_maximum"
      · have hc : int_coerce e.text = none := h e (List.mem_cons_self _ _) hmax
        simp only [hmax, hc]
        simpa using ih mn mx hrest
      · have hb2 : (e.typ == some "air_temperature_maximum") = false := by
          simpa using hmax
        simp only [hb2, Bool.false_eq_true, if_false]
        exact ih mn mx hrest

/-- A found element is still the one found after appending further
elements. -/
lemma find?_append_of_some {α : Type} (l1 l2 : List α) (p : α → Bool) (a : α)
    (h : l1.find? p = some a) : (l1 ++ l2).find? p = some a := by
  induction l1 with
  | nil => simp at h
  | cons x rest ih =>
    by_cases hx : p x
    · rw [List.find?_cons_of_pos _ hx] at h
      simpa [List.find?_cons_of_pos _ hx] using h
    · rw [List.find?_cons_of_neg _ hx] at h
      simpa [List.find?_cons_of_neg _ hx] using ih h

/-- Characterization of the nearest-temperature loop: for any accumulated
state, the minimum component is the accumulated minimum when assigned and
otherwise the first period whose minimum parses, and independently the
maximum component is the accumulated maximum when assigned and otherwise
the first period whose maximum parses. -/
lemma nearestTemps_eq_first (ps : List ForecastPeriod) (mn : Option Int)
    (mnd : Option String) (mx : Option Int) (mxd : Option String) :
    nearestTemps ps mn mnd mx mxd =
      ((first_min_from ps mn mnd).1, (first_min_from ps mn mnd).2,
       (first_max_from ps mx mxd).1, (first_max_from ps mx mxd).2) := by
  induction ps generalizing mn mnd mx mxd with
  | nil =>
    cases mn <;> cases mx <;> simp [nearestTemps, first_min_from, first_max_from]
  | cons p rest ih =>
    simp only [nearestTemps]
    rcases hpm : (parse_forecast_period p).2.1 with _ | v <;>
      rcases hpx : (parse_forecast_period p).2.2 with _ | w <;>
      cases mn <;> cases mx <;>
      simp [hpm, hpx, first_min_from, first_max_from, ih,
        List.find?_cons_of_pos, List.find?_cons_of_neg, List.find?_cons]

/-- A scan step over an element whose text fails coercion changes
nothing. -/
lemma scanElems_skip_fail (e : PeriodElem) (post : List PeriodElem)
    (mn mx : Option Int) (h : int_coerce e.text = none) :
    scanElems (e :: post) mn mx = scanElems post mn mx := by
  simp only [scanElems]
  by_cases hmin : e.typ = some "air_temperature_minimum"
  · simp [hmin, h]
  · have hb : (e.typ == some "air_temperature_minimum") = false := by simpa using hmin
    by_cases hmax : e.typ = some "air_temperature_maximum"
    · simp [hb, hmax, h]
    · have hb2 : (e.typ == some "air_temperature_maximum") = false := by simpa using hmax
      simp [hb, hb2]

end FetchBom

namespace FetchBom

/-- The record loop of write_csv in fetch_bom.py maps the row rendering
over the records and counts them. -/
lemma write_rows_eq_map_bom (fs : List LocationForecast) :
    write_rows fs = (fs.map csv_row, fs.length) := by
  induction fs with
  | nil => rfl
  | cons f rest ih => simp [write_rows, ih]

end FetchBom

namespace FetchBomApi

/-- The record loop of write_csv in fetch_bom_api.py maps the row rendering
over the records and counts them. -/
lemma write_rows_eq_map_api (fs : List LocationForecast) :
    write_rows fs = (fs.map csv_row, fs.length) := by
  induction fs with
  | nil => rfl
  | cons f rest ih => simp [write_rows, ih]

/-- Every forecast-day slot renders exactly three cells. -/
lemma day_cells_length (days : List DayForecast) (i : Nat) :
    (day_cells days i).length = 3 := by
  unfold day_cells
  cases days.get? i <;> rfl

/-- The seven forecast-day slots of a row render exactly 21 cells. -/
lemma day_block_length (days : List DayForecast) :
    ((List.range 7).flatMap (day_cells days)).length = 21 := by
  rw [show List.range 7 = [0, 1, 2, 3, 4, 5, 6] from rfl]
  simp [List.flatMap_cons, day_cells_length]

end FetchBomApi

/-! ## Claim theorems -/

/-- C1: for every ordered forecast-period sequence of a location area, the
selection made by the parse_bom_xml loop takes the minimum, with its
truncated start date, from the first period whose minimum parses, and
independently the maximum, with its date, from the first period whose
maximum parses (possibly a different period); no later period overrides an
earlier one, the result is stable under any periods appended after both
values are found (the scan breaks there), and a field with no supplying
period is absent. -/
theorem c1_first_period_supplies_each_value :
    (∀ ps : List FetchBom.ForecastPeriod,
       FetchBom.nearestTemps ps none none none none =
         ((FetchBom.spec_first_min ps).1, (FetchBom.spec_first_min ps).2,
          (FetchBom.spec_first_max ps).1, (FetchBom.spec_first_max ps).2)) ∧
    (∀ a : FetchBom.AreaElem,
       FetchBom.area_forecast a =
         { aac := a.aac.getD "", description := a.description.getD "",
           min_temp := (FetchBom.spec_first_min a.periods).1,
           min_temp_date := (FetchBom.spec_first_min a.periods).2,
           max_temp := (FetchBom.spec_first_max a.periods).1,
           max_temp_date := (FetchBom.spec_first_max a.periods).2 }) ∧
    (∀ ps more : List FetchBom.ForecastPeriod,
       (FetchBom.nearestTemps ps none none none none).1.isSome = true →
       (FetchBom.nearestTemps ps none none none none).2.2.1.isSome = true →
       FetchBom.nearestTemps (ps ++ more) none none none none =
         FetchBom.nearestTemps ps none none none none) := by
  have hspec_min : ∀ ps : List FetchBom.ForecastPeriod,
      FetchBom.first_min_from ps none none = FetchBom.spec_first_min ps := by
    intro ps
    rfl
  have hspec_max : ∀ ps : List FetchBom.ForecastPeriod,
      FetchBom.first_max_from ps none none = FetchBom.spec_first_max ps := by
    intro ps
    rfl
  have hmain : ∀ ps : List FetchBom.ForecastPeriod,
      FetchBom.nearestTemps ps none none none none =
        ((FetchBom.spec_first_min ps).1, (FetchBom.spec_first_min ps).2,
         (FetchBom.spec_first_max ps).1, (FetchBom.spec_first_max ps).2) := by
    intro ps
    rw [FetchBom.nearestTemps_eq_first, hspec_min, hspec_max]
  refine ⟨hmain, ?_, ?_⟩
  · intro a
    unfold FetchBom.area_forecast
    rw [hmain]
  · intro ps more h1 h2
    rw [hmain] at h1 h2
    rw [hmain, hmain]
    rcases hfmin : ps.find?
        (fun p => ((FetchBom.parse_forecast_period p).2.1).isSome) with _ | p
    · exfalso
      unfold FetchBom.spec_first_min at h1
      rw [hfmin] at h1
      simp at h1
    rcases hfmax : ps.find?
        (fun p => ((FetchBom.parse_forecast_period p).2.2).isSome) with _ | q
    · exfalso
      unfold FetchBom.spec_first_max at h2
      rw [hfmax] at h2
      simp at h2
    have hfmin2 := FetchBom.find?_append_of_some ps more _ p hfmin
    have hfmax2 := FetchBom.find?_append_of_some ps more _ q hfmax
    unfold FetchBom.spec_first_min FetchBom.spec_first_max
    rw [hfmin, hfmax, hfmin2, hfmax2]

/-- Witness for C1: with a first period carrying only a maximum and a
second carrying both, the minimum comes from the second period and the
maximum from the first, each with its own date, and a third period appended
after both are found changes nothing. -/
theorem c1_witness :
    FetchBom.nearestTemps
        [{ start_time_local := some "2026-01-16T00:00:00+11:00",
           elements := [{ typ := some "air_temperature_maximum",
                          text := some "28" }] },
         { start_time_local := some "2026-01-17T00:00:00+11:00",
           elements := [{ typ := some "air_temperature_minimum",
                          text := some "12" },
                        { typ := some "air_temperature_maximum",
                          text := some "26" }] }] none none none none =
      (some 12, some "2026-01-17", some 28, some "2026-01-16") ∧
    FetchBom.nearestTemps
        ([{ start_time_local := some "2026-01-16T00:00:00+11:00",
            elements := [{ typ := some "air_temperature_maximum",
                           text := some "28" }] },
          { start_time_local := some "2026-01-17T00:00:00+11:00",
            elements := [{ typ := some "air_temperature_minimum",
                           text := some "12" },
                         { typ := some "air_temperature_maximum",
                           text := some "26" }] }] ++
          [{ start_time_local := some "2026-01-18T00:00:00+11:00",
             elements := [{ typ := some "air_temperature_minimum",
                            text := some "2" }] }]) none none none none =
      FetchBom.nearestTemps
        [{ start_time_local := some "2026-01-16T00:00:00+11:00",
           elements := [{ typ := some "air_temperature_maximum",
                          text := some "28" }] },
         { start_time_local := some "2026-01-17T00:00:00+11:00",
           elements := [{ typ := some "air_temperature_minimum",
                          text := some "12" },
                        { typ := some "air_temperature_maximum",
                          text := some "26" }] }] none none none none :=
  ⟨by rw [c1_first_period_supplies_each_value.1]; decide,
   c1_first_period_supplies_each_value.2.2 _ _ (by decide) (by decide)⟩

/-- C7: both write_csv variants emit exactly the fixed header row followed
by one row per record (returning the record count); every row of the API
variant has 31 cells and every row of the XML variant 6 cells, matching
their headers regardless of missing data; absent numeric values render as
the empty string; and forecast-day slots beyond the available data are
emitted as empty cells, never omitted. -/
theorem c7_constant_row_width :
    (∀ fs : List FetchBom.LocationForecast,
       FetchBom.write_csv fs =
         (FetchBom.csv_header :: fs.map FetchBom.csv_row, fs.length)) ∧
    FetchBom.csv_header.length = 6 ∧
    (∀ f : FetchBom.LocationForecast, (FetchBom.csv_row f).length = 6) ∧
    (∀ fs : List FetchBomApi.LocationForecast,
       FetchBomApi.write_csv fs =
         (FetchBomApi.csv_header :: fs.map FetchBomApi.csv_row, fs.length)) ∧
    FetchBomApi.csv_header.length = 31 ∧
    (∀ f : FetchBomApi.LocationForecast, (FetchBomApi.csv_row f).length = 31) ∧
    FetchBom.opt_int_cell none = "" ∧
    (∀ f : FetchBomApi.LocationForecast, f.fire_danger = none →
       (FetchBomApi.csv_row f).get? 6 = some "") ∧
    (∀ f : FetchBom.LocationForecast, f.min_temp_date = none →
       (FetchBom.csv_row f).get? 3 = some "") ∧
    (∀ (days : List FetchBomApi.DayForecast) (i : Nat), days.length ≤ i →
       FetchBomApi.day_cells days i = ["", "", ""]) := by
  refine ⟨?_, rfl, ?_, ?_, ?_, ?_, rfl, ?_, ?_, ?_⟩
  · intro fs
    unfold FetchBom.write_csv
    rw [FetchBom.write_rows_eq_map_bom]
  · intro f
    rfl
  · intro fs
    unfold FetchBomApi.write_csv
    rw [FetchBomApi.write_rows_eq_map_api]
  · rfl
  · intro f
    unfold FetchBomApi.csv_row
    rw [List.length_append, FetchBomApi.day_block_length]
    rfl
  · intro f h
    simp [FetchBomApi.csv_row, h]
  · intro f h
    simp [FetchBom.csv_row, h]
  · intro days i h
    unfold FetchBomApi.day_cells
    rw [List.get?_eq_none.mpr h]

/-- Witness for C7: a record with a single forecast day still renders
empty cells in later day slots. -/
theorem c7_witness :
    FetchBomApi.day_cells
      [{ date := "2026-01-17", temp_min := some 12, temp_max := some 16 }] 3 =
      ["", "", ""] :=
  c7_constant_row_width.2.2.2.2.2.2.2.2.2
    [{ date := "2026-01-17", temp_min := some 12, temp_max := some 16 }] 3
    (by decide)

/-- C5: a forecast-period element whose temperature text fails integer
coercion (non-numeric or missing text) is treated as absent by
parse_forecast_period: the element changes nothing in the scan, and when
every element of a temperature type fails coercion the corresponding
temperature of the period is `none` (not an error, not zero). -/
theorem c5_unparseable_temperature_absent :
    (∀ (pre post : List FetchBom.PeriodElem) (e : FetchBom.PeriodElem)
       (mn mx : Option Int), FetchBom.int_coerce e.text = none →
       FetchBom.scanElems (pre ++ e :: post) mn mx =
         FetchBom.scanElems (pre ++ post) mn mx) ∧
    (∀ p : FetchBom.ForecastPeriod,
       (∀ e ∈ p.elements, e.typ = some "air_temperature_minimum" →
          FetchBom.int_coerce e.text = none) →
       (FetchBom.parse_forecast_period p).2.1 = none) ∧
    (∀ p : FetchBom.ForecastPeriod,
       (∀ e ∈ p.elements, e.typ = some "air_temperature_maximum" →
          FetchBom.int_coerce e.text = none) →
       (FetchBom.parse_forecast_period p).2.2 = none) := by
  refine ⟨?_, ?_, ?_⟩
  · intro pre post e mn mx h
    induction pre generalizing mn mx with
    | nil => simpa using FetchBom.scanElems_skip_fail e post mn mx h
    | cons x rest ih =>
      simp only [List.cons_append]
      unfold FetchBom.scanElems
      by_cases hmin : x.typ = some "air_temperature_minimum"
      · simp only [hmin]
        cases hc : FetchBom.int_coerce x.text with
        | none => simpa using ih _ _
        | some v => simpa using ih _ _
      · have hb : (x.typ == some "air_temperature_minimum") = false := by
          simpa using hmin
        simp only [hb, Bool.false_eq_true, if_false]
        by_cases hmax : x.typ = some "air_temperature_maximum"
        · simp only [hmax]
          cases hc : FetchBom.int_coerce x.text with
          | none => simpa using ih _ _
          | some v => simpa using ih _ _
        · have hb2 : (x.typ == some "air_temperature_maximum") = false := by
            simpa using hmax
          simp only [hb2, Bool.false_eq_true, if_false]
          exact ih _ _
  · intro p h
    unfold FetchBom.parse_forecast_period
    simpa using FetchBom.scanElems_min_of_all_fail p.elements none none h
  · intro p h
    unfold FetchBom.parse_forecast_period
    simpa using FetchBom.scanElems_max_of_all_fail p.elements none none h

/-- Witness for C5 at concrete inputs: an element with non-numeric text and
one with missing text both leave the period temperatures absent. -/
theorem c5_witness :
    FetchBom.parse_forecast_period
      { start_time_local := some "2026-01-16T00:00:00+11:00",
        elements :=
          [{ typ := some "air_temperature_minimum", text := some "abc" },
           { typ := some "air_temperature_maximum", text := none }] } =
      (some "2026-01-16", none, none) := by
  have h2 := c5_unparseable_temperature_absent.2.1
      { start_time_local := some "2026-01-16T00:00:00+11:00",
        elements :=
          [{ typ := some "air_temperature_minimum", text := some "abc" },
           { typ := some "air_temperature_maximum", text := none }] }
      (by decide)
  have h3 := c5_unparseable_temperature_absent.2.2
      { start_time_local := some "2026-01-16T00:00:00+11:00",
        elements :=
          [{ typ := some "air_temperature_minimum", text := some "abc" },
           { typ := some "air_temperature_maximum", text := none }] }
      (by decide)
  refine Prod.ext ?_ (Prod.ext ?_ ?_)
  · rfl
  · simpa using h2
  · simpa using h3

/-- C9: for a name shorter than 3 characters, search_location returns none
whatever the network would have returned: the result is the same for every
possible fetch outcome, so no network call can influence it. -/
theorem c9_short_name_no_network_call
    (net : Except Unit (List FetchBomApi.SearchLoc)) (name : String)
    (h : name.length < 3) :
    FetchBomApi.search_location net name = none := by
  unfold FetchBomApi.search_location
  simp [h]

/-- Witness for C9: the 2-character name "ab" yields none both when the
network would have returned a nonempty result list and when it would have
failed. -/
theorem c9_witness :
    FetchBomApi.search_location
      (Except.ok [{ name := some "ab", geohash := some "r64c839",
                    state := some "NSW", postcode := some "2790" }]) "ab" = none ∧
    FetchBomApi.search_location (Except.error ()) "ab" = none :=
  ⟨c9_short_name_no_network_call _ "ab" (by decide),
   c9_short_name_no_network_call _ "ab" (by decide)⟩

/-- C2 (rain range rendering, modelled from the spec): both bounds present
and zero render the literal "0"; both present and non-zero or unequal
render "lower-upper" (so (1,30) renders "1-30" and (0,5) renders "0-5");
absent bounds render the empty value. -/
theorem c2_rain_rendering :
    FetchBomApi.rain_range_mm (some 0) (some 0) = "0" ∧
    FetchBomApi.rain_range_mm (some 1) (some 30) = "1-30" ∧
    FetchBomApi.rain_range_mm (some 0) (some 5) = "0-5" ∧
    FetchBomApi.rain_range_mm none none = "" ∧
    (∀ l u : Int, ¬(l = 0 ∧ u = 0) →
       FetchBomApi.rain_range_mm (some l) (some u) =
         toString l ++ "-" ++ toString u) := by
  refine ⟨rfl, rfl, rfl, rfl, ?_⟩
  intro l u h
  unfold FetchBomApi.rain_range_mm
  have hb : (l == 0 && u == 0) = false := by
    rcases Decidable.not_and_iff_or_not.mp h with h1 | h1 <;> simp [h1]
  simp [hb]

/-- Witness for C2: the general lower-upper clause at the concrete bounds
(1,30). -/
theorem c2_witness :
    FetchBomApi.rain_range_mm (some 1) (some 30) =
      toString (1 : Int) ++ "-" ++ toString (30 : Int) :=
  c2_rain_rendering.2.2.2.2 1 30 (by decide)

/-- C6: parse_bom_xml yields a LocationForecast exactly for the elements
that are areas of type "location", in order; inserting an element of any
other area kind at any position leaves the output unchanged, so such
elements never appear in it. -/
theorem c6_non_location_areas_skipped :
    (∀ elems : List FetchBom.AreaElem,
       FetchBom.parse_bom_xml elems =
         (elems.filter fun a => a.tag == "area" && a.typ == some "location").map
           FetchBom.area_forecast) ∧
    (∀ (pre post : List FetchBom.AreaElem) (a : FetchBom.AreaElem),
       a.typ ≠ some "location" →
       FetchBom.parse_bom_xml (pre ++ a :: post) =
         FetchBom.parse_bom_xml (pre ++ post)) := by
  have hfilter : ∀ elems : List FetchBom.AreaElem,
      FetchBom.parse_bom_xml elems =
        (elems.filter fun a => a.tag == "area" && a.typ == some "location").map
          FetchBom.area_forecast := by
    intro elems
    induction elems with
    | nil => rfl
    | cons a rest ih =>
      simp only [FetchBom.parse_bom_xml, List.filter_cons]
      by_cases hc : (a.tag == "area" && a.typ == some "location") = true
      · simp [hc, ih]
      · simp only [Bool.not_eq_true] at hc
        simp [hc, ih]
  refine ⟨hfilter, ?_⟩
  intro pre post a ha
  have hb : (a.typ == some "location") = false := by simpa using ha
  rw [hfilter, hfilter, List.filter_append, List.filter_append, List.filter_cons]
  simp [hb]

/-- Witness for C6: a region area inserted between two location scans
leaves parse_bom_xml unchanged. -/
theorem c6_witness :
    FetchBom.parse_bom_xml
      ([{ tag := "area", typ := some "location", aac := some "NSW_PT131",
          description := some "Sydney", periods := [] }] ++
        { tag := "area", typ := some "region", aac := some "NSW_FA001",
          description := some "Northern Rivers",
          periods := [] } :: []) =
      FetchBom.parse_bom_xml
        ([{ tag := "area", typ := some "location", aac := some "NSW_PT131",
            description := some "Sydney", periods := [] }] ++ []) :=
  c6_non_location_areas_skipped.2 _ []
    { tag := "area", typ := some "region", aac := some "NSW_FA001",
      description := some "Northern Rivers", periods := [] }
    (by decide)

/-- C4: for a name of at least 3 characters whose search succeeds,
search_location returns none on an empty result list, the first exact
case-insensitive name match when one exists among the results, and the
first result otherwise. -/
theorem c4_search_match_selection (name : String)
    (locs : List FetchBomApi.SearchLoc) (h3 : 3 ≤ name.length) :
    (locs = [] → FetchBomApi.search_location (Except.ok locs) name = none) ∧
    ((∃ l ∈ locs, FetchBomApi.exact_match name l = true) →
       FetchBomApi.search_location (Except.ok locs) name =
         locs.find? (FetchBomApi.exact_match name)) ∧
    (locs.find? (FetchBomApi.exact_match name) = none →
       FetchBomApi.search_location (Except.ok locs) name = locs.head?) := by
  have hlt : ¬name.length < 3 := not_lt.mpr h3
  refine ⟨?_, ?_, ?_⟩
  · intro he
    subst he
    simp [FetchBomApi.search_location, hlt]
  · intro hex
    have hne : locs.isEmpty = false := by
      rcases hex with ⟨l, hl, _⟩
      rcases locs with _ | _
      · simp at hl
      · rfl
    have hsome : (locs.find? (FetchBomApi.exact_match name)).isSome := by
      rw [List.find?_isSome]
      exact hex
    rcases hf : locs.find? (FetchBomApi.exact_match name) with _ | m
    · rw [hf] at hsome
      simp at hsome
    · simp [FetchBomApi.search_location, hlt, hne, hf]
  · intro hf
    rcases locs with _ | ⟨l, rest⟩
    · simp [FetchBomApi.search_location, hlt]
    · simp [FetchBomApi.search_location, hlt, hf]

/-- Witness for C4: with two results and a case-insensitive exact match in
second position, the match is preferred over the positional first
result. -/
theorem c4_witness :
    FetchBomApi.search_location
      (Except.ok
        [{ name := some "Sydney CBD", geohash := some "r3gx2u9",
           state := some "NSW", postcode := some "2000" },
         { name := some "Sydney", geohash := some "r3gx2f3",
           state := some "NSW", postcode := some "2000" }]) "sydney" =
      [{ name := some "Sydney CBD", geohash := some "r3gx2u9",
         state := some "NSW", postcode := some "2000" },
       { name := some "Sydney", geohash := some "r3gx2f3",
         state := some "NSW", postcode := some "2000" }].find?
        (FetchBomApi.exact_match "sydney") :=
  (c4_search_match_selection "sydney"
      [{ name := some "Sydney CBD", geohash := some "r3gx2u9",
         state := some "NSW", postcode := some "2000" },
       { name := some "Sydney", geohash := some "r3gx2f3",
         state := some "NSW", postcode := some "2000" }]
      (by decide)).2.1
    ⟨{ name := some "Sydney", geohash := some "r3gx2f3",
       state := some "NSW", postcode := some "2000" },
     by decide, by decide⟩

/-- C3: with a present "now" sub-record labelled "Max" carrying current and
later readings, today's max is the current reading and today's min the
later reading; with label "Min" the mapping inverts; with no "now"
sub-record, today's min and max are the direct temp_min and temp_max of the
entry. -/
theorem c3_now_label_mapping :
    (∀ (loc : FetchBomApi.SearchLoc) (e : FetchBomApi.DayEntry)
       (rest : List FetchBomApi.DayEntry) (nd : FetchBomApi.NowData)
       (cur lat : Int),
       e.now = some nd → nd.now_label = some "Max" →
       nd.temp_now = some (some cur) → nd.temp_later = some (some lat) →
       (FetchBomApi.parse_forecast loc (e :: rest)).today_max = some cur ∧
       (FetchBomApi.parse_forecast loc (e :: rest)).today_min = some lat) ∧
    (∀ (loc : FetchBomApi.SearchLoc) (e : FetchBomApi.DayEntry)
       (rest : List FetchBomApi.DayEntry) (nd : FetchBomApi.NowData)
       (cur lat : Int),
       e.now = some nd → nd.now_label = some "Min" →
       nd.temp_now = some (some cur) → nd.temp_later = some (some lat) →
       (FetchBomApi.parse_forecast loc (e :: rest)).today_min = some cur ∧
       (FetchBomApi.parse_forecast loc (e :: rest)).today_max = some lat) ∧
    (∀ (loc : FetchBomApi.SearchLoc) (e : FetchBomApi.DayEntry)
       (rest : List FetchBomApi.DayEntry),
       e.now = none →
       (FetchBomApi.parse_forecast loc (e :: rest)).today_min = e.temp_min ∧
       (FetchBomApi.parse_forecast loc (e :: rest)).today_max = e.temp_max) := by
  refine ⟨?_, ?_, ?_⟩
  · intro loc e rest nd cur lat hnow hlab hcur hlat
    simp [FetchBomApi.parse_forecast, FetchBomApi.dict_get, hnow, hlab, hcur, hlat]
  · intro loc e rest nd cur lat hnow hlab hcur hlat
    simp [FetchBomApi.parse_forecast, FetchBomApi.dict_get, hnow, hlab, hcur, hlat]
  · intro loc e rest hnow
    simp [FetchBomApi.parse_forecast, hnow]

/-- Witness for C3: label "Max" with current 18 and later 12 gives today
max 18 and min 12; label "Min" with current 10 and later 25 gives today min
10 and max 25; no "now" sub-record keeps the direct fields. -/
theorem c3_witness :
    ((FetchBomApi.parse_forecast
        { name := some "Lithgow", geohash := some "r64c839",
          state := some "NSW", postcode := some "2790" }
        [{ date := some "2026-01-16T13:00:00Z", temp_min := none,
           temp_max := some 18, fire_danger := some "Moderate", rain := none,
           now := some { now_label := some "Max", temp_now := some (some 18),
                         temp_later := some (some 12) } }]).today_max = some 18 ∧
     (FetchBomApi.parse_forecast
        { name := some "Lithgow", geohash := some "r64c839",
          state := some "NSW", postcode := some "2790" }
        [{ date := some "2026-01-16T13:00:00Z", temp_min := none,
           temp_max := some 18, fire_danger := some "Moderate", rain := none,
           now := some { now_label := some "Max", temp_now := some (some 18),
                         temp_later := some (some 12) } }]).today_min = some 12) ∧
    ((FetchBomApi.parse_forecast
        { name := some "Lithgow", geohash := some "r64c839",
          state := some "NSW", postcode := some "2790" }
        [{ date := some "2026-01-16T13:00:00Z", temp_min := some 10,
           temp_max := some 18, fire_danger := none, rain := none,
           now := some { now_label := some "Min", temp_now := some (some 10),
                         temp_later := some (some 25) } }]).today_min = some 10 ∧
     (FetchBomApi.parse_forecast
        { name := some "Lithgow", geohash := some "r64c839",
          state := some "NSW", postcode := some "2790" }
        [{ date := some "2026-01-16T13:00:00Z", temp_min := some 10,
           temp_max := some 18, fire_danger := none, rain := none,
           now := some { now_label := some "Min", temp_now := some (some 10),
                         temp_later := some (some 25) } }]).today_max = some 25) :=
  ⟨c3_now_label_mapping.1 _ _ [] _ 18 12 rfl rfl rfl rfl,
   c3_now_label_mapping.2.1 _ _ [] _ 10 25 rfl rfl rfl rfl⟩

/-- C10: with a present non-empty "now" sub-record whose label is anything
other than "Max" (absent or unrecognized included), the "Min" mapping
applies: the current reading, when its key is present, becomes today's min
(otherwise the direct temp_min stands), and the later reading, when its key
is present, becomes today's max (otherwise the direct temp_max stands). -/
theorem c10_non_max_label_min_mapping :
    ∀ (loc : FetchBomApi.SearchLoc) (e : FetchBomApi.DayEntry)
      (rest : List FetchBomApi.DayEntry) (nd : FetchBomApi.NowData),
      e.now = some nd → nd.now_label ≠ some "Max" →
      ((nd.temp_now = none →
         (FetchBomApi.parse_forecast loc (e :: rest)).today_min = e.temp_min) ∧
       (∀ v, nd.temp_now = some v →
         (FetchBomApi.parse_forecast loc (e :: rest)).today_min = v) ∧
       (nd.temp_later = none →
         (FetchBomApi.parse_forecast loc (e :: rest)).today_max = e.temp_max) ∧
       (∀ v, nd.temp_later = some v →
         (FetchBomApi.parse_forecast loc (e :: rest)).today_max = v)) := by
  intro loc e rest nd hnow hlab
  have hb : (nd.now_label == some "Max") = false := by simpa using hlab
  refine ⟨?_, ?_, ?_, ?_⟩
  · intro h
    simp [FetchBomApi.parse_forecast, FetchBomApi.dict_get, hnow, hb, h]
  · intro v h
    simp [FetchBomApi.parse_forecast, FetchBomApi.dict_get, hnow, hb, h]
  · intro h
    simp [FetchBomApi.parse_forecast, FetchBomApi.dict_get, hnow, hb, h]
  · intro v h
    simp [FetchBomApi.parse_forecast, FetchBomApi.dict_get, hnow, hb, h]

/-- Witness for C10: a "now" sub-record with an absent label and only the
later reading present leaves today's min at the direct field and overrides
today's max with the later reading. -/
theorem c10_witness :
    (FetchBomApi.parse_forecast
        { name := some "Lithgow", geohash := some "r64c839",
          state := some "NSW", postcode := some "2790" }
        [{ date := some "2026-01-16T13:00:00Z", temp_min := some 9,
           temp_max := some 17, fire_danger := none, rain := none,
           now := some { now_label := none, temp_now := none,
                         temp_later := some (some 21) } }]).today_min = some 9 ∧
    (FetchBomApi.parse_forecast
        { name := some "Lithgow", geohash := some "r64c839",
          state := some "NSW", postcode := some "2790" }
        [{ date := some "2026-01-16T13:00:00Z", temp_min := some 9,
           temp_max := some 17, fire_danger := none, rain := none,
           now := some { now_label := none, temp_now := none,
                         temp_later := some (some 21) } }]).today_max = some 21 :=
  ⟨(c10_non_max_label_min_mapping _ _ [] _ rfl (by decide)).1 rfl,
   (c10_non_max_label_min_mapping _ _ [] _ rfl (by decide)).2.2.2 (some 21) rfl⟩

/-- C8: fetch_forecasts is the filterMap of its per-name body over the full
name list, so every name is processed in order; a name whose body fails
(search failure, unusable geohash, or no forecast data) contributes zero
records and the remaining names are still processed. -/
theorem c8_failed_locations_skipped :
    (∀ (snet : String → Except Unit (List FetchBomApi.SearchLoc))
       (dnet : String → Except Unit (List FetchBomApi.DayEntry))
       (names : List String),
       FetchBomApi.fetch_forecasts snet dnet names =
         names.filterMap (FetchBomApi.process_one snet dnet)) ∧
    (∀ (snet : String → Except Unit (List FetchBomApi.SearchLoc))
       (dnet : String → Except Unit (List FetchBomApi.DayEntry))
       (name : String) (rest : List String),
       FetchBomApi.process_one snet dnet name = none →
       FetchBomApi.fetch_forecasts snet dnet (name :: rest) =
         FetchBomApi.fetch_forecasts snet dnet rest) := by
  have hmain : ∀ (snet : String → Except Unit (List FetchBomApi.SearchLoc))
      (dnet : String → Except Unit (List FetchBomApi.DayEntry))
      (names : List String),
      FetchBomApi.fetch_forecasts snet dnet names =
        names.filterMap (FetchBomApi.process_one snet dnet) := by
    intro snet dnet names
    induction names with
    | nil => rfl
    | cons name rest ih =>
      simp only [FetchBomApi.fetch_forecasts, FetchBomApi.process_one,
        List.filterMap_cons]
      rcases hs : FetchBomApi.search_location (snet name) name with _ | loc
      · simp only [hs]
        exact ih
      · simp only [hs]
        rcases hg : loc.geohash with _ | g
        · simp only [hg]
          exact ih
        · simp only [hg]
          by_cases hge : g.isEmpty
          · simp [hge, ih]
          · by_cases hfd : (FetchBomApi.fetch_daily_forecast (dnet g)).isEmpty
            · simp [hge, hfd, ih]
            · simp [hge, hfd, ih]
  refine ⟨hmain, ?_⟩
  intro snet dnet name rest h
  rw [hmain, hmain, List.filterMap_cons, h]

/-- Witness for C8: with a network where every request fails, the head name
contributes zero records and processing continues with the tail. -/
theorem c8_witness :
    FetchBomApi.fetch_forecasts (fun _ => Except.error ())
        (fun _ => Except.error ()) ["Sydney", "Melbourne"] =
      FetchBomApi.fetch_forecasts (fun _ => Except.error ())
        (fun _ => Except.error ()) ["Melbourne"] :=
  c8_failed_locations_skipped.2 _ _ "Sydney" ["Melbourne"] (by decide)
